import Mathlib

/-!
Verification of the suitcase-detect backend (src/app.py).

The repository is a single Flask handler, estimate_size, registered on
POST /api/estimate-size. This file gives a shallow embedding of that
handler and of the library semantics it relies on:

- a JSON value type modelling Python values produced by json parsing,
  together with Python truthiness, the membership operator, item access
  and str.split, as used on lines 38 to 48 of src/app.py;
- a model of base64.b64decode in its default non-strict mode, as called
  on line 52 (non-alphabet characters are discarded, then the data is
  consumed in quanta of four 6-bit digits with lenient padding);
- a model of json.loads (the JSON grammar accepted by the Python json
  module: the usual values plus NaN, Infinity and -Infinity; rejecting
  trailing commas, unquoted keys, control characters in strings and
  trailing data), as called on line 121;
- the handler flow itself: presence check, data-URL prefix strip,
  base64 validation, dispatch to the external model (modelled as a
  function argument returning either a reply text or a raised message),
  fenced-block extraction, parse, wrap, and the two error handlers;
- a model of the flask_limiter fixed-window rate limiter configured on
  lines 23 and 32 with limit "10 per minute".

Numbers are modelled as mantissa and decimal exponent; the Python int
versus float distinction is not tracked. A lone surrogate in a \u
escape cannot inhabit a Lean Char and is mapped through Char.ofNat;
no claim depends on that corner.
-/

/-- JSON values as produced by the Python json module: null, booleans,
numbers (mantissa times ten to the exponent), strings, arrays, objects,
plus the Python json extensions NaN, Infinity and -Infinity. -/
inductive Json where
  | null : Json
  | bool (b : Bool) : Json
  | num (mantissa : Int) (exp10 : Int) : Json
  | str (s : String) : Json
  | arr (items : List Json) : Json
  | obj (fields : List (String × Json)) : Json
  | nan : Json
  | inf : Json
  | ninf : Json

/-- Python truthiness of a JSON value, as tested by the handler on
line 38 with the expression not data. None, False, zero, the empty
string, the empty list and the empty dict are falsy. -/
def truthy : Json → Bool
  | .null => false
  | .bool b => b
  | .num m _ => !(m == 0)
  | .str s => !(s == "")
  | .arr l => !l.isEmpty
  | .obj l => !l.isEmpty
  | .nan => true
  | .inf => true
  | .ninf => true

/-- Python type name of a JSON value, used in exception messages. The
int versus float distinction of numbers is not tracked. -/
def typeName : Json → String
  | .null => "NoneType"
  | .bool _ => "bool"
  | .num _ _ => "int"
  | .str _ => "str"
  | .arr _ => "list"
  | .obj _ => "dict"
  | .nan => "float"
  | .inf => "float"
  | .ninf => "float"

/-- First binding of a key in an object, modelling Python dict access. -/
def pyLookup : List (String × Json) → String → Option Json
  | [], _ => none
  | (k, v) :: rest, key => if k == key then some v else pyLookup rest key

/-- Prefix test on character lists. -/
def isPrefixOfList : List Char → List Char → Bool
  | [], _ => true
  | _ :: _, [] => false
  | a :: as, b :: bs => a == b && isPrefixOfList as bs

/-- First occurrence of a separator inside a list of characters,
returning the part before it and the part after it. -/
def findSep (sep : List Char) : List Char → Option (List Char × List Char)
  | [] => none
  | c :: cs =>
    if isPrefixOfList sep (c :: cs) then some ([], (c :: cs).drop sep.length)
    else
      match findSep sep cs with
      | some (pre, post) => some (c :: pre, post)
      | none => none

/-- Fueled splitting of a character list on a separator; with fuel at
least the length of the list plus one this computes the full split. -/
def pySplitList (sep : List Char) : Nat → List Char → List (List Char)
  | 0, cs => [cs]
  | fuel + 1, cs =>
    match findSep sep cs with
    | none => [cs]
    | some (pre, post) => pre :: pySplitList sep fuel post

/-- Model of the Python str.split method with a non-empty separator, as
used on lines 48 and 116 of src/app.py. -/
def pySplit (s sep : String) : List String :=
  if sep == "" then [s]
  else (pySplitList sep.toList (s.toList.length + 1) s.toList).map (fun l => String.mk l)

/-- Model of the Python substring membership test needle in s. An empty
needle is a substring of everything. -/
def pyInStr (needle s : String) : Bool :=
  needle == "" || (findSep needle.toList s.toList).isSome

/-- Model of the Python membership operator, needle in v, for a string
needle: key membership for dicts, element equality for lists, substring
search for strings, and a TypeError for the remaining types. The
returned error string is the exception message. -/
def pyIn (needle : String) (v : Json) : Except String Bool :=
  match v with
  | .str s => .ok (pyInStr needle s)
  | .arr items =>
    .ok (items.any (fun j => match j with | .str t => t == needle | _ => false))
  | .obj fields => .ok (pyLookup fields needle).isSome
  | other => .error ("argument of type \x27" ++ typeName other ++ "\x27 is not iterable")

/-- Model of Python subscription v[key] with a string key, as on
line 43: dict lookup, a KeyError for a missing key, and a TypeError for
the non-dict types. -/
def pyGetItem (v : Json) (key : String) : Except String Json :=
  match v with
  | .obj fields =>
    match pyLookup fields key with
    | some j => .ok j
    | none => .error ("\x27" ++ key ++ "\x27")
  | .str _ => .error "string indices must be integers"
  | .arr _ => .error "list indices must be integers or slices, not str"
  | other => .error ("\x27" ++ typeName other ++ "\x27 object is not subscriptable")

/-- Model of the expression image_data.split(",")[1] on line 48: defined
for strings, an AttributeError for every other type, and an IndexError
when the split has fewer than two pieces. -/
def pySplitCommaOne (v : Json) : Except String Json :=
  match v with
  | .str s =>
    match pySplit s "," with
    | _ :: t :: _ => .ok (.str t)
    | _ => .error "list index out of range"
  | other =>
    .error ("\x27" ++ typeName other ++ "\x27 object has no attribute \x27split\x27")

/-- Characters of the standard base64 alphabet, excluding padding. -/
def isB64Char (c : Char) : Bool :=
  ('A' ≤ c && c ≤ 'Z') || ('a' ≤ c && c ≤ 'z') || ('0' ≤ c && c ≤ '9') || c == '+' || c == '/'

/-- Value of a base64 alphabet character. -/
def b64Val (c : Char) : Nat :=
  if 'A' ≤ c && c ≤ 'Z' then c.toNat - 65
  else if 'a' ≤ c && c ≤ 'z' then c.toNat - 97 + 26
  else if '0' ≤ c && c ≤ '9' then c.toNat - 48 + 52
  else if c == '+' then 62
  else 63

/-- Core loop of binascii.a2b_base64 in non-strict mode, applied after
non-alphabet characters have been discarded. The state is the position
inside the current 4-character quantum, the pending bits, the count of
adjacent padding characters, and the output bytes in reverse. Padding
closes a quantum once at least two data characters and enough padding
characters have been seen; leftover data characters at the end are an
error, matching the two messages that binascii raises. -/
def a2bLoop : List Char → Nat → Nat → Nat → List Nat → Option (List Nat)
  | [], quadPos, _, _, acc => if quadPos == 0 then some acc.reverse else none
  | c :: cs, quadPos, leftchar, pads, acc =>
    if c == '=' then
      if 2 ≤ quadPos && 4 ≤ quadPos + (pads + 1) then some acc.reverse
      else if 2 ≤ quadPos then a2bLoop cs quadPos leftchar (pads + 1) acc
      else a2bLoop cs quadPos leftchar pads acc
    else
      let d := b64Val c
      match quadPos with
      | 0 => a2bLoop cs 1 d 0 acc
      | 1 => a2bLoop cs 2 ((leftchar * 64 + d) % 16) 0 (((leftchar * 64 + d) / 16) :: acc)
      | 2 => a2bLoop cs 3 ((leftchar * 64 + d) % 4) 0 (((leftchar * 64 + d) / 4) :: acc)
      | _ => a2bLoop cs 0 0 0 (((leftchar * 64 + d) % 256) :: acc)

/-- Model of base64.b64decode with default arguments, as called on
line 52: the argument must be ASCII, characters outside the base64
alphabet and padding are discarded, then the non-strict a2b loop runs.
Returns none when the Python call would raise. -/
def b64decode (s : String) : Option (List Nat) :=
  if s.toList.all (fun c => c.toNat < 128) then
    a2bLoop (s.toList.filter (fun c => isB64Char c || c == '=')) 0 0 0 []
  else none

example : b64decode "" = some [] := rfl
example : b64decode "AB==" = some [0] := rfl
example : b64decode "QUJD" = some [65, 66, 67] := rfl
example : b64decode "A" = none := rfl
example : b64decode "AB" = none := rfl
example : b64decode "AB,CD" = some [0, 16, 131] := rfl

/-- Whitespace skipped by the Python json module between tokens. -/
def skipWs : List Char → List Char
  | [] => []
  | c :: cs => if c == ' ' || c == '\t' || c == '\n' || c == '\r' then skipWs cs else c :: cs

/-- Decimal digit test. -/
def isDigit (c : Char) : Bool := '0' ≤ c && c ≤ '9'

/-- Value of a hexadecimal digit, either case. -/
def hexVal (c : Char) : Option Nat :=
  if '0' ≤ c && c ≤ '9' then some (c.toNat - 48)
  else if 'a' ≤ c && c ≤ 'f' then some (c.toNat - 87)
  else if 'A' ≤ c && c ≤ 'F' then some (c.toNat - 55)
  else none

/-- Natural number denoted by a list of decimal digits. -/
def natOfDigits (ds : List Char) : Nat :=
  ds.foldl (fun a c => a * 10 + (c.toNat - 48)) 0

/-- Model of the number token of the Python json module, the regular
expression -?(0|[1-9][0-9]*)(. digits)?([eE][+-]? digits)? translated to
a mantissa and a decimal exponent. A failing optional part is left in
the remaining input, exactly as the regular expression leaves it. -/
def parseNumber (cs : List Char) : Option (Json × List Char) :=
  let signed : Bool × List Char :=
    match cs with
    | '-' :: r => (true, r)
    | _ => (false, cs)
  match signed.2 with
  | [] => none
  | c :: r =>
    let intPart : Option (List Char × List Char) :=
      if c == '0' then some ([c], r)
      else if '1' ≤ c && c ≤ '9' then some (c :: r.takeWhile isDigit, r.dropWhile isDigit)
      else none
    match intPart with
    | none => none
    | some (ids, rest1) =>
      let fracPart : List Char × List Char :=
        match rest1 with
        | '.' :: r2 =>
          if (r2.takeWhile isDigit).isEmpty then ([], rest1)
          else (r2.takeWhile isDigit, r2.dropWhile isDigit)
        | _ => ([], rest1)
      let expPart : Int × List Char :=
        match fracPart.2 with
        | e :: r3 =>
          if e == 'e' || e == 'E' then
            let sgn : Int × List Char :=
              match r3 with
              | '+' :: r4 => (1, r4)
              | '-' :: r4 => (-1, r4)
              | _ => (1, r3)
            if (sgn.2.takeWhile isDigit).isEmpty then (0, fracPart.2)
            else (sgn.1 * (natOfDigits (sgn.2.takeWhile isDigit) : Int),
                  sgn.2.dropWhile isDigit)
          else (0, fracPart.2)
        | [] => (0, fracPart.2)
      let mantNat := natOfDigits (ids ++ fracPart.1)
      let mant : Int := if signed.1 then -(mantNat : Int) else (mantNat : Int)
      some (.num mant (expPart.1 - fracPart.1.length), expPart.2)

/-- Model of the string scanner of the Python json module in strict
mode, consuming input after the opening quote: raw control characters
are rejected, the eight simple escapes and the \u escape are accepted,
and surrogate pairs are combined. The accumulator is reversed. -/
def parseStringBody : Nat → List Char → List Char → Option (String × List Char)
  | 0, _, _ => none
  | _ + 1, [], _ => none
  | f + 1, c :: cs, acc =>
    if c == '"' then some (String.mk acc.reverse, cs)
    else if c == '\\' then
      match cs with
      | [] => none
      | e :: cs2 =>
        if e == '"' then parseStringBody f cs2 ('"' :: acc)
        else if e == '\\' then parseStringBody f cs2 ('\\' :: acc)
        else if e == '/' then parseStringBody f cs2 ('/' :: acc)
        else if e == 'b' then parseStringBody f cs2 ('\x08' :: acc)
        else if e == 'f' then parseStringBody f cs2 ('\x0c' :: acc)
        else if e == 'n' then parseStringBody f cs2 ('\n' :: acc)
        else if e == 'r' then parseStringBody f cs2 ('\r' :: acc)
        else if e == 't' then parseStringBody f cs2 ('\t' :: acc)
        else if e == 'u' then
          match cs2 with
          | h1 :: h2 :: h3 :: h4 :: cs3 =>
            match hexVal h1, hexVal h2, hexVal h3, hexVal h4 with
            | some a, some b, some c2, some d =>
              let n := ((a * 16 + b) * 16 + c2) * 16 + d
              if 55296 ≤ n && n ≤ 56319 then
                match cs3 with
                | '\\' :: 'u' :: g1 :: g2 :: g3 :: g4 :: cs4 =>
                  match hexVal g1, hexVal g2, hexVal g3, hexVal g4 with
                  | some a2, some b2, some c3, some d2 =>
                    let m := ((a2 * 16 + b2) * 16 + c3) * 16 + d2
                    if 56320 ≤ m && m ≤ 57343 then
                      parseStringBody f cs4
                        (Char.ofNat (65536 + (n - 55296) * 1024 + (m - 56320)) :: acc)
                    else parseStringBody f cs3 (Char.ofNat n :: acc)
                  | _, _, _, _ => parseStringBody f cs3 (Char.ofNat n :: acc)
                | _ => parseStringBody f cs3 (Char.ofNat n :: acc)
              else parseStringBody f cs3 (Char.ofNat n :: acc)
            | _, _, _, _ => none
          | _ => none
        else none
    else if c.toNat < 32 then none
    else parseStringBody f cs (c :: acc)

/-- Constant token helper: expects the given tail characters and yields
the given value. -/
def dropLit (lit : List Char) (cs : List Char) (v : Json) : Option (Json × List Char) :=
  if isPrefixOfList lit cs then some (v, cs.drop lit.length) else none

/-- Element loop of a JSON array, after the opening bracket, with the
value scanner passed as an argument. -/
def parseElemsF (pv : List Char → Option (Json × List Char)) :
    Nat → List Json → Bool → List Char → Option (Json × List Char)
  | 0, _, _, _ => none
  | f + 1, acc, first, cs =>
    match skipWs cs with
    | ']' :: r => if first then some (.arr [], r) else none
    | cs1 =>
      if first then
        match pv cs1 with
        | none => none
        | some (v, rest) =>
          match skipWs rest with
          | ']' :: r2 => some (.arr (v :: acc).reverse, r2)
          | ',' :: r2 => parseElemsF pv f (v :: acc) false r2
          | _ => none
      else
        match pv cs1 with
        | none => none
        | some (v, rest) =>
          match skipWs rest with
          | ']' :: r2 => some (.arr (v :: acc).reverse, r2)
          | ',' :: r2 => parseElemsF pv f (v :: acc) false r2
          | _ => none

/-- Insertion into an object with Python dict semantics: a duplicate
key keeps its first position and takes the last value. -/
def objInsert (fields : List (String × Json)) (k : String) (v : Json) :
    List (String × Json) :=
  if fields.any (fun p => p.1 == k) then
    fields.map (fun p => if p.1 == k then (k, v) else p)
  else fields ++ [(k, v)]

/-- Member loop of a JSON object, after the opening brace, with the
value scanner passed as an argument. -/
def parseMembersF (pv : List Char → Option (Json × List Char)) :
    Nat → List (String × Json) → Bool → List Char → Option (Json × List Char)
  | 0, _, _, _ => none
  | f + 1, acc, first, cs =>
    match skipWs cs with
    | '\x7d' :: r => if first then some (.obj [], r) else none
    | '"' :: r =>
      match parseStringBody (r.length + 1) r [] with
      | none => none
      | some (k, rest) =>
        match skipWs rest with
        | ':' :: r2 =>
          match pv r2 with
          | none => none
          | some (v, rest2) =>
            match skipWs rest2 with
            | '\x7d' :: r3 => some (.obj (objInsert acc k v), r3)
            | ',' :: r3 => parseMembersF pv f (objInsert acc k v) false r3
            | _ => none
        | _ => none
    | _ => none

/-- Value scanner of the Python json module, fueled: strings, objects,
arrays, the constants, NaN, Infinity, -Infinity, and numbers. -/
def parseValueF : Nat → List Char → Option (Json × List Char)
  | 0, _ => none
  | fuel + 1, cs0 =>
    match skipWs cs0 with
    | [] => none
    | c :: r =>
      if c == '"' then
        match parseStringBody (r.length + 1) r [] with
        | some (s, rest) => some (.str s, rest)
        | none => none
      else if c == '\x7b' then parseMembersF (parseValueF fuel) (r.length + 1) [] true r
      else if c == '[' then parseElemsF (parseValueF fuel) (r.length + 1) [] true r
      else if c == 't' then dropLit ['r', 'u', 'e'] r (.bool true)
      else if c == 'f' then dropLit ['a', 'l', 's', 'e'] r (.bool false)
      else if c == 'n' then dropLit ['u', 'l', 'l'] r .null
      else if c == 'N' then dropLit ['a', 'N'] r .nan
      else if c == 'I' then dropLit ['n', 'f', 'i', 'n', 'i', 't', 'y'] r .inf
      else if c == '-' && isPrefixOfList ['I', 'n', 'f', 'i', 'n', 'i', 't', 'y'] r then
        some (.ninf, r.drop 8)
      else parseNumber (c :: r)

/-- Model of json.loads, as called on line 121 of src/app.py: scan one
value, allow trailing whitespace, and reject any trailing data. -/
def json_loads (s : String) : Option Json :=
  match parseValueF (s.toList.length + 1) s.toList with
  | some (v, rest) => if (skipWs rest).isEmpty then some v else none
  | none => none

example : json_loads "null" = some .null := rfl
example : json_loads " [1, 2] " = some (.arr [.num 1 0, .num 2 0]) := rfl
example : json_loads "[]" = some (.arr []) := rfl
example : json_loads "[1,]" = none := rfl
example : json_loads "-6.25e2" = some (.num (-625) 0) := rfl
example : json_loads "01" = none := rfl
example : json_loads "\x7b\"a\": 1, \"a\": 2\x7d" = some (.obj [("a", .num 2 0)]) := rfl
example : json_loads "\x7b\x7d extra" = none := rfl
example : json_loads "\"a\\nb\"" = some (.str "a\nb") := rfl
example : json_loads "not json" = none := rfl
example : json_loads "-Infinity" = some .ninf := rfl
example : json_loads "\x7b\"a\": [true, null]\x7d" = some (.obj [("a", .arr [.bool true, .null])]) := rfl

/-- The fixed instructional prompt of lines 58 to 100 of src/app.py,
sent verbatim with every dispatch. -/
def prompt_text : String :=
  "\n" ++
  "        You are a highly intelligent and perceptive AI specializing in analyzing images from airport settings. Your primary task is to identify and estimate the dimensions of luggage, including suitcases, carry-ons, backpacks, and other travel bags. You should focus exclusively on objects clearly intended for carrying personal belongings during travel.\n" ++
  "\n" ++
  "When presented with an image, meticulously analyze it, focusing only on luggage items. Ignore other objects such as people, furniture, or airport infrastructure unless they provide crucial context for determining the scale of the luggage. Consider perspective, shadows, and any visual cues that might indicate the size of the luggage. If no luggage is present, indicate this clearly.\n" ++
  "\n" ++
  "For each piece of luggage detected, provide an estimation of its dimensions in centimeters, a brief descriptive text, an estimation of its volumetric capacity in cubic centimeters. **Crucially, when estimating the weight, assume the luggage is packed with typical clothing items (e.g., shirts, pants, shoes). Do not estimate the empty weight of the luggage itself. Provide an estimated total weight, including the contents.** Also estimate how much space the luggage will take up in the overhead cabin of a standard commercial airplane. Additionally calculate the sum of the length, width, and height in centimeters.\n" ++
  "\n" ++
  "Output the results in the following JSON format:\n" ++
  "\n" ++
  "```json\n" ++
  "[\n" ++
  "  \x7b\n" ++
  "    \"object_type\": \"Type of luggage (e.g., suitcase, carry-on, backpack)\",\n" ++
  "    \"description\": \"A brief description of the luggage (e.g., \x27Large, hard-shell suitcase, dark blue\x27, \x27Small, rolling carry-on with a front pocket\x27, \x27Red backpack with visible straps\x27)\",\n" ++
  "    \"length_cm\": \"Estimated length in centimeters\",\n" ++
  "    \"width_cm\": \"Estimated width in centimeters\",\n" ++
  "    \"height_cm\": \"Estimated height in centimeters\",\n" ++
  "    \"sum_dimensions_cm\": \"Sum of length, width, and height in centimeters\",\n" ++
  "    \"volumetric_capacity_cubic_cm\": \"Estimated volumetric capacity in cubic centimeters\",\n" ++
  "    \"estimated_weight_kg\": \"Estimated total weight (including contents) in kilograms\",\n" ++
  "    \"confidence\": \"Confidence level in the estimations (e.g., \x27High\x27, \x27Medium\x27, \x27Low\x27)\",\n" ++
  "    \"bounding_box\": \x7b\n" ++
  "        \"x_min\": \"x coordinate of top-left corner\",\n" ++
  "        \"y_min\": \"y coordinate of top-left corner\",\n" ++
  "        \"x_max\": \"x coordinate of bottom-right corner\",\n" ++
  "        \"y_max\": \"y coordinate of bottom-right corner\"\n" ++
  "    \x7d\n" ++
  "  \x7d,\n" ++
  "    \x7b\n" ++
  "      \"object_type\":\"No Luggage\",\n" ++
  "      \"description\": \"No luggage detected in the image.\",\n" ++
  "      \"length_cm\": null,\n" ++
  "      \"width_cm\": null,\n" ++
  "      \"height_cm\": null,\n" ++
  "      \"sum_dimensions_cm\":null,\n" ++
  "      \"volumetric_capacity_cubic_cm\": null,\n" ++
  "      \"estimated_weight_kg\": null,\n" ++
  "      \"confidence\": null,\n" ++
  "      \"bounding_box\": null\n" ++
  "  \x7d\n" ++
  "  // ... more luggage objects if present\n" ++
  "]\n"

/-- Request sent to the external multimodal model on lines 104 to 107:
the fixed prompt and one inline part with a MIME type and the base64
payload string. -/
structure GenRequest where
  prompt : String
  mimeType : String
  payload : String

/-- Body of a jsonify error response, as built on lines 40, 55 and 145. -/
def jsonError (msg : String) : Json := .obj [("error", .str msg)]

/-- Outcome of the input-handling part of the handler: either an early
HTTP response or the validated base64 payload string. -/
inductive PreResult where
  | early (status : Nat) (body : Json) : PreResult
  | payload (s : String) : PreResult

/-- Input handling of estimate_size, lines 36 to 55 of src/app.py: the
presence check on the parsed body, the optional data-URL prefix strip,
and the base64 validation whose inner try turns any exception into a
400 response. The Except layer carries exceptions that reach the outer
catch-all handler. The parsed body is an Option because request
dot get_json yields None for an absent or null body. -/
def preprocess (reqBody : Option Json) : Except String PreResult :=
  match reqBody with
  | none => .ok (.early 400 (jsonError "No image provided"))
  | some data =>
    if truthy data = false then .ok (.early 400 (jsonError "No image provided"))
    else
      match pyIn "image" data with
      | .error e => .error e
      | .ok false => .ok (.early 400 (jsonError "No image provided"))
      | .ok true =>
        match pyGetItem data "image" with
        | .error e => .error e
        | .ok image0 =>
          match pyIn "," image0 with
          | .error e => .error e
          | .ok hasComma =>
            match (if hasComma then pySplitCommaOne image0 else .ok image0) with
            | .error e => .error e
            | .ok image1 =>
              match image1 with
              | .str s =>
                match b64decode s with
                | none => .ok (.early 400 (jsonError "Invalid image data"))
                | some _ => .ok (.payload s)
              | _ => .ok (.early 400 (jsonError "Invalid image data"))

/-- Data-URL prefix strip of lines 46 to 48 on a string value: when a
comma is present the value is replaced by piece one of the split. -/
def stripComma (s : String) : String :=
  if pyInStr "," s then
    match pySplit s "," with
    | _ :: t :: _ => t
    | _ => ""
  else s

/-- Fence marker searched for on line 115. -/
def fenceJson : String := "```json"

/-- Closing fence marker used on line 116. -/
def fence : String := "```"

/-- Python str.strip with no arguments: ASCII whitespace is removed
from both ends (the unicode whitespace cases do not arise here). -/
def pyStrip (s : String) : String :=
  String.mk (((s.toList.dropWhile (fun c =>
    c == ' ' || c == '\t' || c == '\n' || c == '\r' || c == '\x0b' || c == '\x0c')).reverse.dropWhile (fun c =>
    c == ' ' || c == '\t' || c == '\n' || c == '\r' || c == '\x0b' || c == '\x0c')).reverse)

/-- Fenced-block extraction of lines 115 to 118: when the reply contains
the json fence marker, take the piece after its first occurrence, cut
at the first closing fence, and strip; otherwise strip the whole reply.
The fallback arms are unreachable because a present marker guarantees a
second piece and a split is never empty. -/
def extractJson (t : String) : String :=
  if pyInStr fenceJson t then
    pyStrip
      (match pySplit (match pySplit t fenceJson with
                      | _ :: x :: _ => x
                      | _ => "") fence with
       | x :: _ => x
       | [] => "")
  else pyStrip t

/-- Placeholder item returned on lines 133 to 141 when the model reply
does not parse as JSON. -/
def errorItem : Json :=
  .obj [("object_type", .str "Error"),
        ("description", .str "Failed to process luggage information"),
        ("length_inches", .null),
        ("width_inches", .null),
        ("height_inches", .null),
        ("confidence", .null),
        ("bounding_box", .null)]

/-- Reply handling of lines 110 to 141: extract the JSON text, parse
it, wrap a non-array value into a one-element array and answer 200, or
answer 500 with the placeholder item when parsing fails. -/
def processReply (replyText : String) : Nat × Json :=
  match json_loads (extractJson replyText) with
  | some v =>
    (200, match v with
          | .arr l => .arr l
          | other => .arr [other])
  | none => (500, .arr [errorItem])

/-- The dispatch request built on lines 104 to 107 for a validated
payload string. -/
def mkGenRequest (s : String) : GenRequest :=
  ⟨prompt_text, "image/jpeg", s⟩

/-- The estimate_size handler of src/app.py, lines 33 to 145. The
request body is the Option result of request dot get_json; the external
model call together with the response dot text read is the function
argument gen, returning either the reply text or the message of a
raised exception. The outer try of lines 34 and 143 to 145 maps every
uncaught exception to a 500 response carrying its message. -/
def estimate_size (reqBody : Option Json) (gen : GenRequest → Except String String) :
    Nat × Json :=
  match preprocess reqBody with
  | .error e => (500, jsonError e)
  | .ok (.early st b) => (st, b)
  | .ok (.payload s) =>
    match gen (mkGenRequest s) with
    | .error e => (500, jsonError e)
    | .ok reply => processReply reply

/-- The dispatch performed by estimate_size: none when the flow stops
before the external call, otherwise the request handed to the model. -/
def sentRequest (reqBody : Option Json) : Option GenRequest :=
  match preprocess reqBody with
  | .ok (.payload s) => some (mkGenRequest s)
  | _ => none

example : estimate_size none (fun _ => .ok "[]") = (400, jsonError "No image provided") := rfl
example : estimate_size (some (.obj [("image", .str "QUJD")])) (fun _ => .ok "[]")
    = (200, .arr []) := rfl
example : estimate_size (some (.obj [("image", .str "A")])) (fun _ => .ok "[]")
    = (400, jsonError "Invalid image data") := rfl
example : estimate_size (some (.obj [("image", .str "data:image/png;base64,QUJD")])) (fun _ => .ok "not json")
    = (500, .arr [errorItem]) := rfl
example : sentRequest (some (.obj [("image", .str "data:image/png;base64,QUJD")]))
    = some ⟨prompt_text, "image/jpeg", "QUJD"⟩ := rfl
example : estimate_size (some (.obj [("image", .str "QUJD")])) (fun _ => .error "boom")
    = (500, jsonError "boom") := rfl
example : estimate_size (some (.obj [("image", .num 5 0)])) (fun _ => .ok "[]")
    = (500, jsonError "argument of type \x27int\x27 is not iterable") := rfl
example : estimate_size (some (.obj [("image", .arr [])])) (fun _ => .ok "[]")
    = (400, jsonError "Invalid image data") := rfl

/-- Fixed window of a timestamp in seconds, for the limit string
"10 per minute" of line 32. -/
def windowOf (t : Nat) : Nat := t / 60

/-- Modelled from the spec: one hit of the flask_limiter in-memory
fixed-window rate limiter configured on lines 23 and 32 of src/app.py
(storage memory, limit 10 per minute, keyed by the remote address).
The counter of the window of the request is consulted; under 10 the
request is admitted to the handler and counted, otherwise it is
rejected before the handler runs. -/
def limiterStep (counts : String × Nat → Nat) (addr : String) (t : Nat) :
    Bool × (String × Nat → Nat) :=
  if counts (addr, windowOf t) < 10 then
    (true, fun k => if k = (addr, windowOf t) then counts k + 1 else counts k)
  else (false, counts)

/-- Trace of the limiter over a list of requests given as address and
timestamp pairs: each request is tagged with whether it reached the
handler. -/
def runLimiter (counts : String × Nat → Nat) :
    List (String × Nat) → List ((String × Nat) × Bool)
  | [] => []
  | (a, t) :: rest =>
    ((a, t), (limiterStep counts a t).1) :: runLimiter (limiterStep counts a t).2 rest

/-- Number of requests of one address and one window that reached the
handler in a limiter trace. -/
def handledCount (a : String) (w : Nat) (tr : List ((String × Nat) × Bool)) : Nat :=
  (tr.filter (fun e => e.2 && (e.1.1 == a) && (windowOf e.1.2 == w))).length

theorem handledCount_cons (a : String) (w : Nat) (e : (String × Nat) × Bool)
    (tr : List ((String × Nat) × Bool)) :
    handledCount a w (e :: tr) =
      (if e.2 && (e.1.1 == a) && (windowOf e.1.2 == w) then 1 else 0) + handledCount a w tr := by
  by_cases hp : (e.2 && (e.1.1 == a) && (windowOf e.1.2 == w)) = true
  · simp [handledCount, List.filter_cons, hp]
    omega
  · simp [handledCount, List.filter_cons, hp]

theorem limiter_invariant (reqs : List (String × Nat)) :
    ∀ (counts : String × Nat → Nat) (a : String) (w : Nat),
      counts (a, w) ≤ 10 →
      handledCount a w (runLimiter counts reqs) + counts (a, w) ≤ 10 := by
  induction reqs with
  | nil =>
    intro counts a w h
    simpa [runLimiter, handledCount] using h
  | cons head rest ih =>
    obtain ⟨a1, t1⟩ := head
    intro counts a w h
    have hrun : runLimiter counts ((a1, t1) :: rest) =
        ((a1, t1), (limiterStep counts a1 t1).1) ::
          runLimiter (limiterStep counts a1 t1).2 rest := rfl
    rw [hrun, handledCount_cons]
    by_cases hlt : counts (a1, windowOf t1) < 10
    · have hfst : (limiterStep counts a1 t1).1 = true := by
        simp [limiterStep, hlt]
      by_cases hkey : (a1, windowOf t1) = (a, w)
      · have ha : a1 = a := congrArg Prod.fst hkey
        have hw : windowOf t1 = w := congrArg Prod.snd hkey
        have hstep : (limiterStep counts a1 t1).2 (a, w) = counts (a, w) + 1 := by
          simp only [limiterStep, if_pos hlt]
          rw [if_pos hkey.symm]
        have hc : counts (a, w) < 10 := by
          rw [← ha, ← hw]; exact hlt
        have hrec := ih (limiterStep counts a1 t1).2 a w (by rw [hstep]; omega)
        rw [hstep] at hrec
        have hif : ((limiterStep counts a1 t1).1 && (a1 == a) && (windowOf t1 == w)) = true := by
          rw [hfst, ha, hw]
          simp
        simp only [hif, if_true]
        omega
      · have hstep : (limiterStep counts a1 t1).2 (a, w) = counts (a, w) := by
          simp only [limiterStep, if_pos hlt]
          rw [if_neg (fun hh => hkey hh.symm)]
        have hrec := ih (limiterStep counts a1 t1).2 a w (by rw [hstep]; exact h)
        rw [hstep] at hrec
        have hba : ((a1 == a) && (windowOf t1 == w)) = false := by
          rcases Bool.eq_false_or_eq_true ((a1 == a) && (windowOf t1 == w)) with hb | hb
          · exfalso
            have hsplit := (Bool.and_eq_true _ _).mp hb
            exact hkey (by rw [eq_of_beq hsplit.1, eq_of_beq hsplit.2])
          · exact hb
        have hif : ((limiterStep counts a1 t1).1 && (a1 == a) && (windowOf t1 == w)) = false := by
          rw [Bool.and_assoc, hba, Bool.and_false]
        simp only [hif, Bool.false_eq_true, if_false]
        omega
    · have hfst : (limiterStep counts a1 t1) = (false, counts) := by
        simp [limiterStep, hlt]
      rw [hfst]
      simpa using ih counts a w h

theorem pySplitList_ne_nil (sep : List Char) (fuel : Nat) (cs : List Char) :
    pySplitList sep fuel cs ≠ [] := by
  cases fuel with
  | zero => simp [pySplitList]
  | succ f =>
    cases hf : findSep sep cs with
    | none => simp [pySplitList, hf]
    | some pr =>
      obtain ⟨pre, post⟩ := pr
      simp [pySplitList, hf]

theorem pySplit_two_pieces (s sep : String) (hsep : (sep == "") = false)
    (hin : pyInStr sep s = true) :
    ∃ x y t, pySplit s sep = x :: y :: t := by
  have hfind : (findSep sep.toList s.toList).isSome = true := by
    unfold pyInStr at hin
    rcases Bool.or_eq_true _ _ |>.mp hin with hl | hr
    · rw [hsep] at hl
      exact absurd hl (by simp)
    · exact hr
  obtain ⟨pr, hf⟩ := Option.isSome_iff_exists.mp hfind
  obtain ⟨pre, post⟩ := pr
  have hsplit : pySplitList sep.toList (s.toList.length + 1) s.toList =
      pre :: pySplitList sep.toList s.toList.length post := by
    simp only [pySplitList]
    rw [hf]
  have htail := pySplitList_ne_nil sep.toList s.toList.length post
  obtain ⟨y0, t0, ht⟩ := List.exists_cons_of_ne_nil htail
  refine ⟨String.mk pre, String.mk y0, (t0.map (fun l => String.mk l)), ?_⟩
  unfold pySplit
  rw [hsep]
  simp only [Bool.false_eq_true, if_false, hsplit, ht, List.map_cons]

theorem preprocess_obj_str (fields : List (String × Json)) (s0 : String)
    (himg : pyLookup fields "image" = some (.str s0)) :
    preprocess (some (.obj fields)) =
      match b64decode (stripComma s0) with
      | none => .ok (.early 400 (jsonError "Invalid image data"))
      | some _ => .ok (.payload (stripComma s0)) := by
  cases fields with
  | nil => simp [pyLookup] at himg
  | cons p l =>
    have htr : truthy (.obj (p :: l)) = true := by
      simp [truthy]
    have hin : pyIn "image" (.obj (p :: l)) = .ok true := by
      simp [pyIn, himg]
    have hget : pyGetItem (.obj (p :: l)) "image" = .ok (.str s0) := by
      simp [pyGetItem, himg]
    by_cases hc : pyInStr "," s0 = true
    · obtain ⟨x, y, t, hsp⟩ := pySplit_two_pieces s0 "," (by decide) hc
      have hone : pySplitCommaOne (.str s0) = .ok (.str y) := by
        simp [pySplitCommaOne, hsp]
      have hstrip : stripComma s0 = y := by
        simp [stripComma, hc, hsp]
      rw [← hstrip] at hone
      simp [preprocess, htr, hin, hget, pyIn, hc, hone, himg]
    · have hcf : pyInStr "," s0 = false := by
        cases hb : pyInStr "," s0 with
        | false => rfl
        | true => exact absurd hb hc
      have hstrip : stripComma s0 = s0 := by
        simp [stripComma, hcf]
      simp [preprocess, htr, hin, hget, pyIn, hcf, hstrip, himg]

theorem estimate_size_of_sent (reqBody : Option Json) (req : GenRequest)
    (gen : GenRequest → Except String String) (h : sentRequest reqBody = some req) :
    estimate_size reqBody gen =
      match gen req with
      | .error e => (500, jsonError e)
      | .ok reply => processReply reply := by
  unfold sentRequest at h
  cases hp : preprocess reqBody with
  | error e =>
    rw [hp] at h
    simp at h
  | ok pr =>
    cases pr with
    | early st b =>
      rw [hp] at h
      simp at h
    | payload s =>
      rw [hp] at h
      have hreq : mkGenRequest s = req := by simpa using h
      simp [estimate_size, hp, hreq]

theorem estimate_size_obj_str (fields : List (String × Json)) (s0 : String)
    (gen : GenRequest → Except String String)
    (himg : pyLookup fields "image" = some (.str s0)) :
    estimate_size (some (.obj fields)) gen =
      (match b64decode (stripComma s0) with
       | none => (400, jsonError "Invalid image data")
       | some _ =>
         match gen (mkGenRequest (stripComma s0)) with
         | .error e => (500, jsonError e)
         | .ok reply => processReply reply) ∧
    sentRequest (some (.obj fields)) =
      (match b64decode (stripComma s0) with
       | none => none
       | some _ => some (mkGenRequest (stripComma s0))) := by
  have hp := preprocess_obj_str fields s0 himg
  cases hb : b64decode (stripComma s0) with
  | none =>
    rw [hb] at hp
    exact ⟨by simp [estimate_size, hp, hb], by simp [sentRequest, hp, hb]⟩
  | some bs =>
    rw [hb] at hp
    exact ⟨by simp [estimate_size, hp, hb], by simp [sentRequest, hp, hb]⟩

/-- C1: for every request whose JSON body is absent, empty in the
Python falsy sense, or an object lacking the key image, estimate_size
answers 400 with body error No image provided, and no dispatch to the
external model occurs. -/
theorem C1_missing_image (reqBody : Option Json) (gen : GenRequest → Except String String)
    (h : reqBody = none ∨
         (∃ v, reqBody = some v ∧ truthy v = false) ∨
         (∃ fields, reqBody = some (.obj fields) ∧ pyLookup fields "image" = none)) :
    estimate_size reqBody gen = (400, jsonError "No image provided") ∧
    sentRequest reqBody = none := by
  rcases h with h | ⟨v, hv, hf⟩ | ⟨fields, hv, hf⟩
  · subst h
    exact ⟨rfl, rfl⟩
  · subst hv
    exact ⟨by simp [estimate_size, preprocess, hf],
           by simp [sentRequest, preprocess, hf]⟩
  · subst hv
    by_cases ht : truthy (.obj fields) = false
    · exact ⟨by simp [estimate_size, preprocess, ht],
             by simp [sentRequest, preprocess, ht]⟩
    · have ht2 : truthy (.obj fields) = true := by
        cases hb : truthy (.obj fields) with
        | false => exact absurd hb ht
        | true => rfl
      exact ⟨by simp [estimate_size, preprocess, ht2, pyIn, hf],
             by simp [sentRequest, preprocess, ht2, pyIn, hf]⟩

/-- Witness for C1 at a concrete body that has no image key. -/
theorem C1_missing_image_witness :
    estimate_size (some (.obj [("foo", .null)])) (fun _ => .ok "[]")
        = (400, jsonError "No image provided") ∧
    sentRequest (some (.obj [("foo", .null)])) = none :=
  C1_missing_image (some (.obj [("foo", .null)])) (fun _ => .ok "[]")
    (Or.inr (Or.inr ⟨[("foo", .null)], rfl, rfl⟩))

/-- C2: for every request whose image value is a string that is not
valid base64 after the optional prefix strip, estimate_size answers 400
with body error Invalid image data, and no dispatch occurs. -/
theorem C2_invalid_base64 (fields : List (String × Json)) (s0 : String)
    (gen : GenRequest → Except String String)
    (himg : pyLookup fields "image" = some (.str s0))
    (hbad : b64decode (stripComma s0) = none) :
    estimate_size (some (.obj fields)) gen = (400, jsonError "Invalid image data") ∧
    sentRequest (some (.obj fields)) = none := by
  obtain ⟨h1, h2⟩ := estimate_size_obj_str fields s0 gen himg
  rw [hbad] at h1 h2
  exact ⟨h1, h2⟩

/-- Witness for C2 at the one-character string A, which is one data
character more than a multiple of four. -/
theorem C2_invalid_base64_witness :
    estimate_size (some (.obj [("image", .str "A")])) (fun _ => .ok "[]")
        = (400, jsonError "Invalid image data") ∧
    sentRequest (some (.obj [("image", .str "A")])) = none :=
  C2_invalid_base64 [("image", .str "A")] "A" (fun _ => .ok "[]") rfl rfl

/-- Modelled from the spec words of claim C3: the substring of a string
after its first comma, which the claim says is the encoded payload. -/
def afterFirstComma (s : String) : String :=
  String.mk ((s.toList.dropWhile (fun c => !(c == ','))).drop 1)

/-- C3 counterexample: on an image string with two commas the code
keeps only the piece between the first and the second comma, not the
whole substring after the first comma; the two payloads differ and the
difference is observable, because the substring after the first comma
is valid base64 while the kept piece is not, so the request is refused
with 400 although the claim implies a dispatch. -/
theorem C3_counterexample :
    stripComma "x,AB,CD" = "AB" ∧
    afterFirstComma "x,AB,CD" = "AB,CD" ∧
    ("AB" : String) ≠ "AB,CD" ∧
    estimate_size (some (.obj [("image", .str "x,AB,CD")])) (fun _ => .ok "[]")
        = (400, jsonError "Invalid image data") ∧
    (b64decode (afterFirstComma "x,AB,CD")).isSome = true :=
  ⟨rfl, rfl, by decide, rfl, rfl⟩

/-- C3 amended: for every image string containing at least one comma,
the encoded payload used for validation and dispatch is piece one of
the comma split, the segment strictly between the first comma and the
second comma or the end of the string. -/
theorem C3_amended_strip (fields : List (String × Json)) (s0 y : String)
    (t : List String) (gen : GenRequest → Except String String)
    (himg : pyLookup fields "image" = some (.str s0))
    (hc : pyInStr "," s0 = true)
    (hsp : ∃ x, pySplit s0 "," = x :: y :: t) :
    stripComma s0 = y ∧
    (b64decode y = none →
      estimate_size (some (.obj fields)) gen = (400, jsonError "Invalid image data")) ∧
    (∀ bs, b64decode y = some bs →
      sentRequest (some (.obj fields)) = some ⟨prompt_text, "image/jpeg", y⟩) := by
  obtain ⟨x, hx⟩ := hsp
  have hstrip : stripComma s0 = y := by
    simp [stripComma, hc, hx]
  refine ⟨hstrip, ?_, ?_⟩
  · intro hbad
    obtain ⟨h1, _⟩ := estimate_size_obj_str fields s0 gen himg
    rw [hstrip, hbad] at h1
    exact h1
  · intro bs hok
    obtain ⟨_, h2⟩ := estimate_size_obj_str fields s0 gen himg
    rw [hstrip, hok] at h2
    exact h2

/-- Witness for the amended C3 at a string with two commas whose middle
piece is valid base64. -/
theorem C3_amended_strip_witness :
    stripComma "hdr,QUJD,rest" = "QUJD" ∧
    (b64decode "QUJD" = none →
      estimate_size (some (.obj [("image", .str "hdr,QUJD,rest")])) (fun _ => .ok "[]")
          = (400, jsonError "Invalid image data")) ∧
    (∀ bs, b64decode "QUJD" = some bs →
      sentRequest (some (.obj [("image", .str "hdr,QUJD,rest")]))
          = some ⟨prompt_text, "image/jpeg", "QUJD"⟩) :=
  C3_amended_strip [("image", .str "hdr,QUJD,rest")] "hdr,QUJD,rest" "QUJD" ["rest"]
    (fun _ => .ok "[]") rfl rfl ⟨"hdr", rfl⟩

/-- C4 counterexample: a fenced block holding a single object, not an
array, is parsed and then wrapped, so the 200 body is the one-element
array around the parsed value and differs from the parsed value
itself, against the claim that the body equals that value. -/
theorem C4_counterexample :
    json_loads (extractJson "```json\n\x7b\"a\": 1\x7d\n```") = some (.obj [("a", .num 1 0)]) ∧
    estimate_size (some (.obj [("image", .str "QUJD")]))
        (fun _ => .ok "```json\n\x7b\"a\": 1\x7d\n```")
        = (200, .arr [.obj [("a", .num 1 0)]]) ∧
    Json.arr [.obj [("a", .num 1 0)]] ≠ Json.obj [("a", .num 1 0)] :=
  ⟨rfl, rfl, fun h => Json.noConfusion h⟩

/-- C4 amended: for every model reply containing a fenced json block
whose extracted content parses to a JSON array, the 200 response body
equals that array exactly, and the extracted content is the stripped
text between the first json fence marker and the next closing fence. -/
theorem C4_amended_fenced_array (reqBody : Option Json) (req : GenRequest)
    (gen : GenRequest → Except String String) (reply : String) (items : List Json)
    (hsent : sentRequest reqBody = some req)
    (hgen : gen req = .ok reply)
    (hfence : pyInStr fenceJson reply = true)
    (hparse : json_loads (extractJson reply) = some (.arr items)) :
    estimate_size reqBody gen = (200, .arr items) ∧
    extractJson reply =
      pyStrip (match pySplit (match pySplit reply fenceJson with
                              | _ :: x :: _ => x
                              | _ => "") fence with
               | x :: _ => x
               | [] => "") := by
  constructor
  · rw [estimate_size_of_sent reqBody req gen hsent, hgen]
    simp [processReply, hparse]
  · simp [extractJson, hfence]

/-- Witness for the amended C4 at a fenced one-element array. -/
theorem C4_amended_fenced_array_witness :
    estimate_size (some (.obj [("image", .str "QUJD")]))
        (fun _ => .ok "```json\n[1]\n```")
        = (200, .arr [.num 1 0]) ∧
    extractJson "```json\n[1]\n```" =
      pyStrip (match pySplit (match pySplit "```json\n[1]\n```" fenceJson with
                              | _ :: x :: _ => x
                              | _ => "") fence with
               | x :: _ => x
               | [] => "") :=
  C4_amended_fenced_array (some (.obj [("image", .str "QUJD")]))
    ⟨prompt_text, "image/jpeg", "QUJD"⟩ (fun _ => .ok "```json\n[1]\n```")
    "```json\n[1]\n```" [.num 1 0] rfl rfl rfl rfl

/-- Array test used to state claim C5. -/
def isArr : Json → Bool
  | .arr _ => true
  | _ => false

/-- C5: for every model reply whose extracted text parses to a JSON
value, estimate_size answers 200; a non-array value is wrapped into a
one-element array holding exactly that value, an array is returned
unchanged. -/
theorem C5_wrap_non_array (reqBody : Option Json) (req : GenRequest)
    (gen : GenRequest → Except String String) (reply : String) (v : Json)
    (hsent : sentRequest reqBody = some req)
    (hgen : gen req = .ok reply)
    (hparse : json_loads (extractJson reply) = some v) :
    (isArr v = false → estimate_size reqBody gen = (200, .arr [v])) ∧
    (∀ l, v = .arr l → estimate_size reqBody gen = (200, .arr l)) := by
  have h := estimate_size_of_sent reqBody req gen hsent
  rw [hgen] at h
  constructor
  · intro hna
    rw [h]
    cases v <;> simp_all [processReply, hparse, isArr]
  · intro l hl
    subst hl
    rw [h]
    simp [processReply, hparse]

/-- Witness for C5 at a reply that is a bare object. -/
theorem C5_wrap_non_array_witness :
    (isArr (.obj [("a", .bool true)]) = false →
      estimate_size (some (.obj [("image", .str "QUJD")]))
          (fun _ => .ok "\x7b\"a\": true\x7d")
          = (200, .arr [.obj [("a", .bool true)]])) ∧
    (∀ l, Json.obj [("a", .bool true)] = .arr l →
      estimate_size (some (.obj [("image", .str "QUJD")]))
          (fun _ => .ok "\x7b\"a\": true\x7d")
          = (200, .arr l)) :=
  C5_wrap_non_array (some (.obj [("image", .str "QUJD")]))
    ⟨prompt_text, "image/jpeg", "QUJD"⟩ (fun _ => .ok "\x7b\"a\": true\x7d")
    "\x7b\"a\": true\x7d" (.obj [("a", .bool true)]) rfl rfl rfl

/-- C6: for every model reply whose extracted text does not parse as
JSON, estimate_size answers 500 with a one-element array holding the
placeholder item, whose object_type is Error and whose null dimension
fields are named length_inches, width_inches and height_inches. -/
theorem C6_parse_failure (reqBody : Option Json) (req : GenRequest)
    (gen : GenRequest → Except String String) (reply : String)
    (hsent : sentRequest reqBody = some req)
    (hgen : gen req = .ok reply)
    (hparse : json_loads (extractJson reply) = none) :
    estimate_size reqBody gen = (500, .arr [errorItem]) ∧
    errorItem = .obj [("object_type", .str "Error"),
        ("description", .str "Failed to process luggage information"),
        ("length_inches", .null), ("width_inches", .null), ("height_inches", .null),
        ("confidence", .null), ("bounding_box", .null)] := by
  constructor
  · rw [estimate_size_of_sent reqBody req gen hsent, hgen]
    simp [processReply, hparse]
  · rfl

/-- Witness for C6 at a reply that is prose rather than JSON. -/
theorem C6_parse_failure_witness :
    estimate_size (some (.obj [("image", .str "QUJD")]))
        (fun _ => .ok "I could not detect any luggage.")
        = (500, .arr [errorItem]) ∧
    errorItem = .obj [("object_type", .str "Error"),
        ("description", .str "Failed to process luggage information"),
        ("length_inches", .null), ("width_inches", .null), ("height_inches", .null),
        ("confidence", .null), ("bounding_box", .null)] :=
  C6_parse_failure (some (.obj [("image", .str "QUJD")]))
    ⟨prompt_text, "image/jpeg", "QUJD"⟩
    (fun _ => .ok "I could not detect any luggage.")
    "I could not detect any luggage." rfl rfl rfl

/-- C7: for every request whose image string passes base64 validation
after the strip, the dispatched request carries the fixed prompt, the
declared MIME type image/jpeg and the post-strip base64 string itself;
the response depends only on the reply of the model for that request,
so the decoded bytes are used neither in the dispatch nor in the
response. -/
theorem C7_forwarded_payload (fields : List (String × Json)) (s0 : String) (bs : List Nat)
    (himg : pyLookup fields "image" = some (.str s0))
    (hok : b64decode (stripComma s0) = some bs) :
    sentRequest (some (.obj fields)) = some ⟨prompt_text, "image/jpeg", stripComma s0⟩ ∧
    ∀ gen, estimate_size (some (.obj fields)) gen =
      (match gen ⟨prompt_text, "image/jpeg", stripComma s0⟩ with
       | .error e => (500, jsonError e)
       | .ok reply => processReply reply) := by
  constructor
  · obtain ⟨_, h2⟩ := estimate_size_obj_str fields s0 (fun _ => .ok "") himg
    rw [hok] at h2
    exact h2
  · intro gen
    obtain ⟨h1, _⟩ := estimate_size_obj_str fields s0 gen himg
    rw [hok] at h1
    exact h1

/-- Witness for C7 at a data-URL-prefixed image string. -/
theorem C7_forwarded_payload_witness :
    sentRequest (some (.obj [("image", .str "data:image/jpeg;base64,QUJD")]))
        = some ⟨prompt_text, "image/jpeg", stripComma "data:image/jpeg;base64,QUJD"⟩ ∧
    ∀ gen, estimate_size (some (.obj [("image", .str "data:image/jpeg;base64,QUJD")])) gen =
      (match gen ⟨prompt_text, "image/jpeg", stripComma "data:image/jpeg;base64,QUJD"⟩ with
       | .error e => (500, jsonError e)
       | .ok reply => processReply reply) :=
  C7_forwarded_payload [("image", .str "data:image/jpeg;base64,QUJD")]
    "data:image/jpeg;base64,QUJD" [65, 66, 67] rfl rfl

/-- C8: every uncaught failure in the handler flow, whether raised
before the dispatch or by the dispatch to the external model itself,
makes estimate_size answer 500 with body error set to the message of
the exception. -/
theorem C8_catch_all (reqBody : Option Json) (gen : GenRequest → Except String String)
    (e : String)
    (h : preprocess reqBody = .error e ∨
         ∃ req, sentRequest reqBody = some req ∧ gen req = .error e) :
    estimate_size reqBody gen = (500, jsonError e) := by
  rcases h with h | ⟨req, hsent, hgen⟩
  · simp [estimate_size, h]
  · rw [estimate_size_of_sent reqBody req gen hsent, hgen]

/-- Witness for C8 at a failing dispatch. -/
theorem C8_catch_all_witness :
    estimate_size (some (.obj [("image", .str "QUJD")])) (fun _ => .error "quota exceeded")
        = (500, jsonError "quota exceeded") :=
  C8_catch_all (some (.obj [("image", .str "QUJD")])) (fun _ => .error "quota exceeded")
    "quota exceeded"
    (Or.inr ⟨⟨prompt_text, "image/jpeg", "QUJD"⟩, rfl, rfl⟩)

/-- C9: over any sequence of requests the fixed-window rate limiter
admits at most 10 requests of one source address to the handler within
one window, and a request of an address whose window counter has
reached 10 is rejected before the handler runs. -/
theorem C9_rate_limit :
    (∀ (reqs : List (String × Nat)) (a : String) (w : Nat),
        handledCount a w (runLimiter (fun _ => 0) reqs) ≤ 10) ∧
    (∀ (counts : String × Nat → Nat) (a : String) (t : Nat),
        10 ≤ counts (a, windowOf t) → (limiterStep counts a t).1 = false) := by
  constructor
  · intro reqs a w
    have h := limiter_invariant reqs (fun _ => 0) a w (Nat.zero_le 10)
    simpa using h
  · intro counts a t h
    unfold limiterStep
    rw [if_neg (Nat.not_lt.mpr h)]

/-- Witness for C9: a bound at a concrete trace and a rejection at a
saturated counter. -/
theorem C9_rate_limit_witness :
    handledCount "1.2.3.4" 0 (runLimiter (fun _ => 0) [("1.2.3.4", 30)]) ≤ 10 ∧
    (limiterStep (fun _ => 10) "1.2.3.4" 30).1 = false :=
  ⟨C9_rate_limit.1 [("1.2.3.4", 30)] "1.2.3.4" 0,
   C9_rate_limit.2 (fun _ => 10) "1.2.3.4" 30 (Nat.le_refl 10)⟩

/-- C10 counterexample: a comma-free list or dict image value does not
raise in the comma containment check, which succeeds on containers;
the failure then happens inside the base64 validation try, whose
handler answers 400 with error Invalid image data, not 500 as the
claim states for every non-string value. -/
theorem C10_counterexample :
    estimate_size (some (.obj [("image", .arr [])])) (fun _ => .ok "[]")
        = (400, jsonError "Invalid image data") ∧
    estimate_size (some (.obj [("image", .obj [("k", .null)])])) (fun _ => .ok "[]")
        = (400, jsonError "Invalid image data") ∧
    (400 : Nat) ≠ 500 :=
  ⟨rfl, rfl, by decide⟩

/-- C10 amended: for every request whose image value is a number, a
boolean or null, the comma containment check raises a TypeError before
any validation runs and the catch-all answers 500 with the message of
that exception. An array or dict value passes the comma check without
raising: when the container has no comma member, an element for a
list, a key for a dict, the value reaches the base64 validation and
its inner except answers 400 with error Invalid image data; when it
does have a comma member, the split attribute access raises an
AttributeError outside the inner try and the catch-all answers 500
with its message. -/
theorem C10_amended_type_error :
    (∀ (fields : List (String × Json)) (v : Json) (gen : GenRequest → Except String String),
      pyLookup fields "image" = some v →
      (v = .null ∨ (∃ b, v = .bool b) ∨ (∃ m e2, v = .num m e2) ∨
       v = .nan ∨ v = .inf ∨ v = .ninf) →
      estimate_size (some (.obj fields)) gen =
        (500, jsonError ("argument of type \x27" ++ typeName v ++ "\x27 is not iterable"))) ∧
    (∀ (fields : List (String × Json)) (items : List Json)
       (gen : GenRequest → Except String String),
      pyLookup fields "image" = some (.arr items) →
      items.any (fun j => match j with | .str t => t == "," | _ => false) = false →
      estimate_size (some (.obj fields)) gen = (400, jsonError "Invalid image data")) ∧
    (∀ (fields : List (String × Json)) (items : List Json)
       (gen : GenRequest → Except String String),
      pyLookup fields "image" = some (.arr items) →
      items.any (fun j => match j with | .str t => t == "," | _ => false) = true →
      estimate_size (some (.obj fields)) gen =
        (500, jsonError "\x27list\x27 object has no attribute \x27split\x27")) ∧
    (∀ (fields fields2 : List (String × Json)) (gen : GenRequest → Except String String),
      pyLookup fields "image" = some (.obj fields2) →
      (pyLookup fields2 ",").isSome = false →
      estimate_size (some (.obj fields)) gen = (400, jsonError "Invalid image data")) ∧
    (∀ (fields fields2 : List (String × Json)) (gen : GenRequest → Except String String),
      pyLookup fields "image" = some (.obj fields2) →
      (pyLookup fields2 ",").isSome = true →
      estimate_size (some (.obj fields)) gen =
        (500, jsonError "\x27dict\x27 object has no attribute \x27split\x27")) := by
  refine ⟨?_, ?_, ?_, ?_, ?_⟩
  · intro fields v gen himg hty
    have herr : pyIn "," v =
        .error ("argument of type \x27" ++ typeName v ++ "\x27 is not iterable") := by
      rcases hty with h | ⟨b, h⟩ | ⟨m, e2, h⟩ | h | h | h <;> subst h <;> rfl
    cases fields with
    | nil => simp [pyLookup] at himg
    | cons p l =>
      have htr : truthy (.obj (p :: l)) = true := by
        simp [truthy]
      have hin : pyIn "image" (.obj (p :: l)) = .ok true := by
        simp [pyIn, himg]
      have hget : pyGetItem (.obj (p :: l)) "image" = .ok v := by
        simp [pyGetItem, himg]
      simp [estimate_size, preprocess, htr, hin, hget, herr]
  · intro fields items gen himg hcm
    cases fields with
    | nil => simp [pyLookup] at himg
    | cons p l =>
      have htr : truthy (.obj (p :: l)) = true := by
        simp [truthy]
      have hin : pyIn "image" (.obj (p :: l)) = .ok true := by
        simp [pyIn, himg]
      have hget : pyGetItem (.obj (p :: l)) "image" = .ok (.arr items) := by
        simp [pyGetItem, himg]
      have hcomma : pyIn "," (.arr items) = .ok false := by
        simp only [pyIn, hcm]
      simp [estimate_size, preprocess, htr, hin, hget, hcomma]
  · intro fields items gen himg hcm
    cases fields with
    | nil => simp [pyLookup] at himg
    | cons p l =>
      have htr : truthy (.obj (p :: l)) = true := by
        simp [truthy]
      have hin : pyIn "image" (.obj (p :: l)) = .ok true := by
        simp [pyIn, himg]
      have hget : pyGetItem (.obj (p :: l)) "image" = .ok (.arr items) := by
        simp [pyGetItem, himg]
      have hcomma : pyIn "," (.arr items) = .ok true := by
        simp only [pyIn, hcm]
      simp [estimate_size, preprocess, htr, hin, hget, hcomma, pySplitCommaOne, typeName]
  · intro fields fields2 gen himg hcm
    cases fields with
    | nil => simp [pyLookup] at himg
    | cons p l =>
      have htr : truthy (.obj (p :: l)) = true := by
        simp [truthy]
      have hin : pyIn "image" (.obj (p :: l)) = .ok true := by
        simp [pyIn, himg]
      have hget : pyGetItem (.obj (p :: l)) "image" = .ok (.obj fields2) := by
        simp [pyGetItem, himg]
      have hcomma : pyIn "," (.obj fields2) = .ok false := by
        simp only [pyIn, hcm]
      simp [estimate_size, preprocess, htr, hin, hget, hcomma]
  · intro fields fields2 gen himg hcm
    cases fields with
    | nil => simp [pyLookup] at himg
    | cons p l =>
      have htr : truthy (.obj (p :: l)) = true := by
        simp [truthy]
      have hin : pyIn "image" (.obj (p :: l)) = .ok true := by
        simp [pyIn, himg]
      have hget : pyGetItem (.obj (p :: l)) "image" = .ok (.obj fields2) := by
        simp [pyGetItem, himg]
      have hcomma : pyIn "," (.obj fields2) = .ok true := by
        simp only [pyIn, hcm]
      simp [estimate_size, preprocess, htr, hin, hget, hcomma, pySplitCommaOne, typeName]

/-- Witness for the amended C10: an integer value, a comma-free list,
a list holding a comma string, a comma-free dict, and a dict with a
comma key, each at a concrete request. -/
theorem C10_amended_type_error_witness :
    estimate_size (some (.obj [("image", .num 7 0)])) (fun _ => .ok "[]")
        = (500, jsonError ("argument of type \x27" ++ typeName (.num 7 0) ++ "\x27 is not iterable")) ∧
    estimate_size (some (.obj [("image", .arr [.str "x"])])) (fun _ => .ok "[]")
        = (400, jsonError "Invalid image data") ∧
    estimate_size (some (.obj [("image", .arr [.str ","])])) (fun _ => .ok "[]")
        = (500, jsonError "\x27list\x27 object has no attribute \x27split\x27") ∧
    estimate_size (some (.obj [("image", .obj [("k", .null)])])) (fun _ => .ok "[]")
        = (400, jsonError "Invalid image data") ∧
    estimate_size (some (.obj [("image", .obj [(",", .null)])])) (fun _ => .ok "[]")
        = (500, jsonError "\x27dict\x27 object has no attribute \x27split\x27") :=
  ⟨C10_amended_type_error.1 [("image", .num 7 0)] (.num 7 0) (fun _ => .ok "[]") rfl
      (Or.inr (Or.inr (Or.inl ⟨7, 0, rfl⟩))),
   C10_amended_type_error.2.1 [("image", .arr [.str "x"])] [.str "x"] (fun _ => .ok "[]") rfl rfl,
   C10_amended_type_error.2.2.1 [("image", .arr [.str ","])] [.str ","] (fun _ => .ok "[]") rfl rfl,
   C10_amended_type_error.2.2.2.1 [("image", .obj [("k", .null)])] [("k", .null)]
      (fun _ => .ok "[]") rfl rfl,
   C10_amended_type_error.2.2.2.2 [("image", .obj [(",", .null)])] [(",", .null)]
      (fun _ => .ok "[]") rfl rfl⟩
